import Mathlib

/-!
Verification of the selection/overlay lifecycle controller of
`quill-image-resize-module` (the `ImageResize` class in the source).

The embedding is a shallow one: every handler of the class becomes a Lean
function from controller state to controller state paired with a trace of
observable actions (module lifecycle hooks, overlay element creation and
removal, host-editor commands).  DOM event-listener registration is modelled
by an explicit registry keyed, as in the DOM, by (target, event type,
capture flag): `addEventListener` is a set-insert on that key and
`removeEventListener` removes exactly that key, so a removal with a
different capture flag is a silent no-op — faithful to real DOM semantics.
-/

namespace ImageResize

/-- Identifier of a configured capability-module class (index into the
configured module list). -/
abbrev ModuleId := Nat

/-- Identifier of an image node inside the editor. -/
abbrev ImgId := Nat

/-- A rendered bounding box, as returned by `getBoundingClientRect`
(viewport coordinates). -/
structure Rect where
  left : Int
  top : Int
  width : Int
  height : Int
deriving DecidableEq, Repr

/-- Geometry Sync: the overlay box computed by `repositionElements` from the
image's rendered box, the container's box and the container's scroll
offsets (source lines 169-174). -/
def computeOverlayBox (imgRect containerRect : Rect)
    (scrollLeft scrollTop : Int) : Rect :=
  { left := imgRect.left - containerRect.left - 1 + scrollLeft
  , top := imgRect.top - containerRect.top + scrollTop
  , width := imgRect.width
  , height := imgRect.height }

/-- Targets on which the class registers event listeners. -/
inductive EvtTarget where
  | document
  | root
deriving DecidableEq, Repr

/-- Event types the class registers listeners for. -/
inductive EvtType where
  | click
  | mscontrolselect
  | scroll
  | keyup
  | inputEvt
deriving DecidableEq, Repr

/-- A DOM listener registration for the class's bound callbacks, keyed as the
DOM keys registrations: target, event type and capture flag.  (The callback
itself is determined by the (target, type) pair in this program, so it is
not part of the key.) -/
structure Listener where
  target : EvtTarget
  evtType : EvtType
  capture : Bool
deriving DecidableEq, Repr

/-- DOM `addEventListener`: inserts the registration unless an identical one
(same target, type and capture flag) is already present. -/
def addEventListener (reg : List Listener) (l : Listener) : List Listener :=
  if l ∈ reg then reg else reg ++ [l]

/-- DOM `removeEventListener`: removes only a registration with the identical
key; removing with a different capture flag than the registration is a
silent no-op, exactly as in the DOM. -/
def removeEventListener (reg : List Listener) (l : Listener) : List Listener :=
  reg.filter (fun x => x ≠ l)

/-- Observable actions emitted by the controller's handlers, in the order the
corresponding source statements execute. -/
inductive Action where
  /-- Models `new (knownModules[ModuleClass] || ModuleClass)(this)` for one entry. -/
  | construct (m : ModuleId)
  /-- Models `module.onCreate()` on one module instance. -/
  | onCreate (m : ModuleId)
  /-- Models `module.onUpdate()` on one module instance. -/
  | moduleUpdate (m : ModuleId)
  /-- Models `module.onDestroy()` on one module instance. -/
  | onDestroy (m : ModuleId)
  /-- Models the geometry assignment to the overlay style in `repositionElements`. -/
  | reposition
  /-- Models `document.createElement` plus `appendChild` of the overlay. -/
  | createOverlay
  /-- Models `removeChild` of the overlay element. -/
  | removeOverlay
  /-- Models `this.img = img` in `show`. -/
  | setImg (i : ImgId)
  /-- Models `this.img = undefined` in `hide`. -/
  | clearImg
  /-- Models `this.quill.setSelection(index, 0)` in `showOverlay`. -/
  | setSelection
  /-- Models `Quill.find(this.img).deleteAt(offset)` in `checkImage`. -/
  | deleteCmd (offset : Nat)
deriving DecidableEq, Repr

/-- The mutable state of an `ImageResize` instance: the active image
reference `img`, whether the overlay element exists (`overlay`) and the
geometry last applied to it (`overlayBox`), the live module instances
(`modules`), the configured read-only class list (`moduleClasses`), and the
DOM listener registry. -/
structure CtrlState where
  img : Option ImgId
  overlay : Bool
  overlayBox : Option Rect
  modules : List ModuleId
  moduleClasses : List ModuleId
  listeners : List Listener
deriving DecidableEq, Repr

/-- The live-measurement environment a handler reads from the DOM:
each image's bounding box, the container's bounding box and its scroll
offsets. -/
structure Env where
  imgRect : ImgId → Rect
  containerRect : Rect
  scrollLeft : Int
  scrollTop : Int

/-- Embeds `repositionElements` (source lines 159-175): no-op unless both the
overlay and the image reference exist; otherwise recomputes the overlay box
from live measurements and applies it. -/
def repositionElements (env : Env) (s : CtrlState) :
    CtrlState × List Action :=
  match s.overlay, s.img with
  | true, some i =>
      let box := computeOverlayBox (env.imgRect i) env.containerRect
        env.scrollLeft env.scrollTop
      ({ s with overlayBox := some box }, [Action.reposition])
  | _, _ => (s, [])

/-- Embeds `removeModules` (source lines 79-87): `onDestroy` on every live module,
in list order, then clear the instance list. -/
def removeModules (s : CtrlState) : CtrlState × List Action :=
  ({ s with modules := [] }, s.modules.map Action.onDestroy)

/-- Embeds `onUpdate` (source lines 70-77): reposition, then `onUpdate` on each live
module in order. -/
def onUpdate (env : Env) (s : CtrlState) : CtrlState × List Action :=
  let (s1, t1) := repositionElements env s
  (s1, t1 ++ s1.modules.map Action.moduleUpdate)

/-- Embeds `initializeModules` (source lines 54-68): destroy any existing instances,
construct one instance per configured class in list order, `onCreate` on
each in order, then one aggregate `onUpdate`. -/
def initializeModules (env : Env) (s : CtrlState) :
    CtrlState × List Action :=
  let (s1, t1) := removeModules s
  let s2 := { s1 with modules := s1.moduleClasses }
  let (s3, t4) := onUpdate env s2
  (s3, t1 ++ s1.moduleClasses.map Action.construct
        ++ s2.modules.map Action.onCreate ++ t4)

/-- Embeds `hideOverlay` (source lines 145-157): no-op if no overlay; otherwise
remove the overlay element, then call `removeEventListener` for the keyup
and input callbacks — the source passes no capture argument, so the removal
key has `capture = false`. -/
def hideOverlay (s : CtrlState) : CtrlState × List Action :=
  match s.overlay with
  | false => (s, [])
  | true =>
      let reg1 := removeEventListener s.listeners
        ⟨EvtTarget.document, EvtType.keyup, false⟩
      let reg2 := removeEventListener reg1
        ⟨EvtTarget.root, EvtType.inputEvt, false⟩
      ({ s with overlay := false, overlayBox := none, listeners := reg2 },
       [Action.removeOverlay])

/-- Embeds `showOverlay` (source lines 123-143): if an overlay exists, destroy it
first; set the host selection to the image's index (length 0); register the
keyup and input listeners with `capture = true`; create and attach the
overlay element; reposition. -/
def showOverlay (env : Env) (s : CtrlState) : CtrlState × List Action :=
  let (s1, t1) := match s.overlay with
    | true => hideOverlay s
    | false => (s, [])
  let reg1 := addEventListener s1.listeners
    ⟨EvtTarget.document, EvtType.keyup, true⟩
  let reg2 := addEventListener reg1
    ⟨EvtTarget.root, EvtType.inputEvt, true⟩
  let s2 := { s1 with listeners := reg2 }
  let s3 := { s2 with overlay := true, overlayBox := none }
  let (s4, t4) := repositionElements env s3
  (s4, t1 ++ [Action.setSelection, Action.createOverlay] ++ t4)

/-- Embeds `hide` (source lines 177-181): `hideOverlay()`, then `removeModules()`,
then clear the image reference — in that order, unconditionally. -/
def hide (s : CtrlState) : CtrlState × List Action :=
  let (s1, t1) := hideOverlay s
  let (s2, t2) := removeModules s1
  ({ s2 with img := none }, t1 ++ t2 ++ [Action.clearImg])

/-- Embeds `show` (source lines 114-121; renamed `showImage` because `show` is a
Lean keyword): record the image reference, `showOverlay()`, then
`initializeModules()`. -/
def showImage (env : Env) (s : CtrlState) (i : ImgId) :
    CtrlState × List Action :=
  let s1 := { s with img := some i }
  let (s2, t2) := showOverlay env s1
  let (s3, t3) := initializeModules env s2
  (s3, Action.setImg i :: (t2 ++ t3))

/-- Embeds `handleClick` (source lines 89-106): `target = some i` models a click on
image node `i`, `target = none` a click on a non-image.  Clicking the active
image is an early return; clicking another image hides first, then shows;
clicking a non-image hides iff an image is active. -/
def handleClick (env : Env) (s : CtrlState) (target : Option ImgId) :
    CtrlState × List Action :=
  match target with
  | some i =>
      if s.img = some i then (s, [])
      else
        let (s1, t1) := match s.img with
          | some _ => hide s
          | none => (s, [])
        let (s2, t2) := showImage env s1 i
        (s2, t1 ++ t2)
  | none =>
      match s.img with
      | some _ => hide s
      | none => (s, [])

/-- Embeds `checkImage` (source lines 196-203): no-op unless an image is active;
otherwise issue the host delete command (`deleteAt(0)`) iff the event's
keyCode is 46 or 8 (an `input` event has no keyCode, modelled as `none`),
then `hide()`. -/
def checkImage (s : CtrlState) (keyCode : Option Nat) :
    CtrlState × List Action :=
  match s.img with
  | some _ =>
      let t1 := if keyCode = some 46 ∨ keyCode = some 8
        then [Action.deleteCmd 0] else []
      let (s1, t2) := hide s
      (s1, t1 ++ t2)
  | none => (s, [])

/-- The `text-change` callback installed in the constructor (source lines
44-46): it calls `repositionElements()` and nothing else. -/
def textChange (env : Env) (s : CtrlState) : CtrlState × List Action :=
  repositionElements env s

/-- The state after the constructor (source lines 15-52): no image, no
overlay, no module instances, the configured class list stashed, and the
constructor-lifetime listeners (click, mscontrolselect, scroll, registered
with capture `false`) in the registry. -/
def initState (moduleClasses : List ModuleId) : CtrlState :=
  { img := none, overlay := false, overlayBox := none
  , modules := [], moduleClasses := moduleClasses
  , listeners :=
      [ ⟨EvtTarget.root, EvtType.click, false⟩
      , ⟨EvtTarget.root, EvtType.mscontrolselect, false⟩
      , ⟨EvtTarget.root, EvtType.scroll, false⟩ ] }

/-- External events the controller can receive.  A `keyup` or `inputEvt`
event reaches `checkImage` only while the corresponding listener is
registered; `scroll` and `click` listeners live for the whole controller
lifetime. -/
inductive Event where
  | click (target : Option ImgId)
  | scroll
  | keyup (keyCode : Nat)
  | inputEvt
  | textChange
deriving DecidableEq, Repr

/-- Dispatch of one external event, honouring the listener registry for the
dynamically managed keyup/input listeners. -/
def step (env : Env) (s : CtrlState) : Event → CtrlState × List Action
  | Event.click t => handleClick env s t
  | Event.scroll => hide s
  | Event.keyup k =>
      if (⟨EvtTarget.document, EvtType.keyup, true⟩ : Listener) ∈ s.listeners
      then checkImage s (some k) else (s, [])
  | Event.inputEvt =>
      if (⟨EvtTarget.root, EvtType.inputEvt, true⟩ : Listener) ∈ s.listeners
      then checkImage s none else (s, [])
  | Event.textChange => textChange env s

/-- Run a sequence of external events, concatenating the traces. -/
def run (env : Env) (s : CtrlState) : List Event → CtrlState × List Action
  | [] => (s, [])
  | e :: es =>
      let (s1, t1) := step env s e
      let (s2, t2) := run env s1 es
      (s2, t1 ++ t2)

/-- Actions belonging to teardown of a selection. -/
def isTeardown : Action → Bool
  | Action.onDestroy _ => true
  | Action.removeOverlay => true
  | Action.clearImg => true
  | _ => false

/-- Actions belonging to setup of a selection. -/
def isSetup : Action → Bool
  | Action.construct _ => true
  | Action.onCreate _ => true
  | Action.moduleUpdate _ => true
  | Action.reposition => true
  | Action.createOverlay => true
  | Action.setImg _ => true
  | Action.setSelection => true
  | _ => false

/-- A concrete measurement environment (the geometry of the spec's
round-trip example). -/
def env0 : Env :=
  { imgRect := fun _ => ⟨110, 40, 200, 150⟩
  , containerRect := ⟨100, 20, 640, 480⟩
  , scrollLeft := 5
  , scrollTop := 0 }

/-- A reachable Selected state: one configured module, one click on image 1
from the freshly constructed state. -/
def stateSel : CtrlState :=
  (run env0 (initState [0]) [Event.click (some 1)]).1

/-- The state after one full select/deselect cycle (click image 1, then
click a non-image) from the freshly constructed state. -/
def cycledState : CtrlState :=
  (run env0 (initState [0]) [Event.click (some 1), Event.click none]).1

/-- Repositioning never changes the active image reference. -/
theorem repositionElements_img (env : Env) (s : CtrlState) :
    (repositionElements env s).1.img = s.img := by
  rcases h1 : s.overlay <;> rcases h2 : s.img <;>
    simp [repositionElements, h1, h2]

/-- Repositioning never changes the overlay-existence flag. -/
theorem repositionElements_overlay (env : Env) (s : CtrlState) :
    (repositionElements env s).1.overlay = s.overlay := by
  rcases h1 : s.overlay <;> rcases h2 : s.img <;>
    simp [repositionElements, h1, h2]

/-- Repositioning never changes the live module list. -/
theorem repositionElements_modules (env : Env) (s : CtrlState) :
    (repositionElements env s).1.modules = s.modules := by
  rcases h1 : s.overlay <;> rcases h2 : s.img <;>
    simp [repositionElements, h1, h2]

/-- Repositioning never changes the configured class list. -/
theorem repositionElements_moduleClasses (env : Env) (s : CtrlState) :
    (repositionElements env s).1.moduleClasses = s.moduleClasses := by
  rcases h1 : s.overlay <;> rcases h2 : s.img <;>
    simp [repositionElements, h1, h2]

/-- Teardown of the overlay never changes the active image reference. -/
theorem hideOverlay_img (s : CtrlState) :
    (hideOverlay s).1.img = s.img := by
  rcases h : s.overlay <;> simp [hideOverlay, h]

/-- Teardown of the overlay never changes the live module list. -/
theorem hideOverlay_modules (s : CtrlState) :
    (hideOverlay s).1.modules = s.modules := by
  rcases h : s.overlay <;> simp [hideOverlay, h]

/-- Teardown of the overlay never changes the configured class list. -/
theorem hideOverlay_moduleClasses (s : CtrlState) :
    (hideOverlay s).1.moduleClasses = s.moduleClasses := by
  rcases h : s.overlay <;> simp [hideOverlay, h]

/-- After `hideOverlay` the overlay flag is always clear. -/
theorem hideOverlay_overlay (s : CtrlState) :
    (hideOverlay s).1.overlay = false := by
  rcases h : s.overlay <;> simp [hideOverlay, h]

/-- The trace of `hide` in the Selected state: overlay removal first, then
every module destroyed in order, then the image reference cleared. -/
theorem hide_trace (s : CtrlState) (h : s.overlay = true) :
    (hide s).2
      = Action.removeOverlay
        :: (s.modules.map Action.onDestroy ++ [Action.clearImg]) := by
  simp [hide, hideOverlay, removeModules, h, hideOverlay_modules]

/-- The trace of `hide` when no overlay exists: module destruction then the
image-reference clear still run. -/
theorem hide_trace_no_overlay (s : CtrlState) (h : s.overlay = false) :
    (hide s).2 = s.modules.map Action.onDestroy ++ [Action.clearImg] := by
  simp [hide, hideOverlay, removeModules, h]

/-- After `hide` the image reference is cleared. -/
theorem hide_img (s : CtrlState) : (hide s).1.img = none := by
  rcases h : s.overlay <;> simp [hide, hideOverlay, removeModules, h]

/-- After `hide` no overlay exists. -/
theorem hide_overlay (s : CtrlState) : (hide s).1.overlay = false := by
  rcases h : s.overlay <;> simp [hide, hideOverlay, removeModules, h]

/-- After `hide` no module instances are live. -/
theorem hide_modules (s : CtrlState) : (hide s).1.modules = [] := by
  rcases h : s.overlay <;> simp [hide, hideOverlay, removeModules, h]

/-- Teardown never changes the configured class list. -/
theorem hide_moduleClasses (s : CtrlState) :
    (hide s).1.moduleClasses = s.moduleClasses := by
  rcases h : s.overlay <;> simp [hide, hideOverlay, removeModules, h]

/-- No host delete command occurs anywhere in a `hide` trace. -/
theorem deleteCmd_not_in_hide (s : CtrlState) (o : Nat) :
    Action.deleteCmd o ∉ (hide s).2 := by
  rcases h : s.overlay <;>
    simp [hide, hideOverlay, removeModules, h, hideOverlay_modules]

/-- After `showImage` the recorded image reference is the shown image. -/
theorem showImage_img (env : Env) (s : CtrlState) (i : ImgId) :
    (showImage env s i).1.img = some i := by
  rcases h : s.overlay <;>
    simp [showImage, showOverlay, initializeModules, removeModules, onUpdate,
      hideOverlay, h, repositionElements_img, repositionElements_modules,
      repositionElements]

/-- The setup trace of `showImage` from a cleanly torn-down state: record the
image, set the host selection, create the overlay, reposition, then
construct / `onCreate` / reposition / `onUpdate` the configured modules, in
list order. -/
theorem showImage_trace (env : Env) (s : CtrlState) (i : ImgId)
    (h1 : s.overlay = false) (h2 : s.modules = []) :
    (showImage env s i).2
      = Action.setImg i :: Action.setSelection :: Action.createOverlay
        :: Action.reposition
        :: (s.moduleClasses.map Action.construct
            ++ s.moduleClasses.map Action.onCreate
            ++ Action.reposition :: s.moduleClasses.map Action.moduleUpdate) := by
  simp [showImage, showOverlay, initializeModules, removeModules, onUpdate,
    repositionElements, h1, h2]

/-- The typing of `run` on a cons cell, stated for rewriting. -/
theorem run_cons (env : Env) (s : CtrlState) (e : Event) (es : List Event) :
    run env s (e :: es)
      = ((run env (step env s e).1 es).1,
         (step env s e).2 ++ (run env (step env s e).1 es).2) := rfl

/-- Clicking the image that is already active is an exact no-op. -/
theorem step_click_same (env : Env) (s : CtrlState) (i : ImgId)
    (h : s.img = some i) :
    step env s (Event.click (some i)) = (s, []) := by
  simp [step, handleClick, h]

/-- Any number of repeated clicks on the already-active image leave the state
untouched and emit no action. -/
theorem run_replicate_click (env : Env) (s : CtrlState) (i : ImgId)
    (n : Nat) (h : s.img = some i) :
    run env s (List.replicate n (Event.click (some i))) = (s, []) := by
  induction n with
  | zero => simp [run]
  | succ n ih =>
      rw [List.replicate_succ, run_cons, step_click_same env s i h]
      simp [ih]

/-- Every action in a teardown trace is a teardown action. -/
theorem teardown_trace_all (ms : List ModuleId) :
    ∀ x ∈ Action.removeOverlay :: (ms.map Action.onDestroy ++ [Action.clearImg]),
      isTeardown x = true := by
  intro x hx
  simp [List.mem_cons, List.mem_append, List.mem_map] at hx
  rcases hx with rfl | ⟨m, _, rfl⟩ | rfl <;> rfl

/-- Every action in a clean setup trace is a setup action. -/
theorem setup_trace_all (mc : List ModuleId) (b : ImgId) :
    ∀ x ∈ Action.setImg b :: Action.setSelection :: Action.createOverlay
        :: Action.reposition
        :: (mc.map Action.construct ++ mc.map Action.onCreate
            ++ Action.reposition :: mc.map Action.moduleUpdate),
      isSetup x = true := by
  intro x hx
  simp [List.mem_cons, List.mem_append, List.mem_map] at hx
  rcases hx with rfl | rfl | rfl | rfl | ⟨m, _, rfl⟩ | ⟨m, _, rfl⟩ | rfl | ⟨m, _, rfl⟩ <;> rfl

/-- C1.  The claim states teardown destroys the modules first and removes the
overlay second.  In the code (`hide`, source lines 177-181) the order of
those two steps is the opposite: `hideOverlay()` runs before
`removeModules()`.  Counterexample: in the reachable Selected state
`stateSel` (one configured module, one click on image 1), the teardown trace
starts with the overlay removal, not with an `onDestroy`. -/
theorem C1_counterexample :
    stateSel.img = some 1 ∧ stateSel.overlay = true ∧ stateSel.modules = [0]
    ∧ (hide stateSel).2
        = [Action.removeOverlay, Action.onDestroy 0, Action.clearImg]
    ∧ (hide stateSel).2
        ≠ stateSel.modules.map Action.onDestroy
          ++ [Action.removeOverlay, Action.clearImg] := by decide

/-- C1 (amended).  On the Selected-to-Idle transition, teardown removes the
overlay element first, then destroys all module instances (`onDestroy` on
each, in instantiation order), then clears the active image reference; all
three steps execute unconditionally once teardown starts, and the overlay
and the modules are destroyed strictly before the image reference is
cleared. -/
theorem C1_amended_theorem (s : CtrlState) (h : s.overlay = true) :
    (hide s).2
      = Action.removeOverlay
        :: (s.modules.map Action.onDestroy ++ [Action.clearImg])
    ∧ (hide s).1.img = none
    ∧ (hide s).1.overlay = false
    ∧ (hide s).1.modules = [] :=
  ⟨hide_trace s h, hide_img s, hide_overlay s, hide_modules s⟩

/-- C1 witness: the amended teardown contract evaluated in the reachable
Selected state `stateSel`. -/
theorem C1_witness :
    (hide stateSel).2
      = Action.removeOverlay
        :: (stateSel.modules.map Action.onDestroy ++ [Action.clearImg])
    ∧ (hide stateSel).1.img = none
    ∧ (hide stateSel).1.overlay = false
    ∧ (hide stateSel).1.modules = [] :=
  C1_amended_theorem stateSel (by decide)

/-- C2.  The claim states a content-change notification while Selected also
invokes `onUpdate` on every live module.  The handler installed in the
constructor (source lines 44-46) only calls `repositionElements()`:
in the reachable Selected state `stateSel`, whose module instance list is
`[0]`, the text-change trace is exactly one reposition and contains no
module update. -/
theorem C2_counterexample :
    stateSel.img = some 1 ∧ stateSel.modules = [0]
    ∧ (textChange env0 stateSel).2 = [Action.reposition]
    ∧ Action.moduleUpdate 0 ∉ (textChange env0 stateSel).2 := by decide

/-- C2 (amended).  On a content-change notification, if the controller is in
the Selected state (overlay and image present) it recomputes and reapplies
overlay geometry only — it does not invoke `onUpdate` on any module
instance; in the Idle state the notification is a no-op. -/
theorem C2_amended_theorem (env : Env) (s : CtrlState) :
    (∀ i, s.overlay = true → s.img = some i →
       (textChange env s).2 = [Action.reposition]
       ∧ (textChange env s).1.modules = s.modules
       ∧ ∀ m, Action.moduleUpdate m ∉ (textChange env s).2)
    ∧ (s.img = none → textChange env s = (s, [])) := by
  constructor
  · intro i h1 h2
    simp [textChange, repositionElements, h1, h2]
  · intro h
    rcases h1 : s.overlay <;> simp [textChange, repositionElements, h1, h]

/-- C2 witness: the amended content-change contract evaluated in the
reachable Selected state `stateSel` and in the freshly constructed Idle
state. -/
theorem C2_witness :
    ((textChange env0 stateSel).2 = [Action.reposition]
     ∧ (textChange env0 stateSel).1.modules = stateSel.modules
     ∧ ∀ m, Action.moduleUpdate m ∉ (textChange env0 stateSel).2)
    ∧ textChange env0 (initState [0]) = (initState [0], []) :=
  ⟨(C2_amended_theorem env0 stateSel).1 1 (by decide) (by decide),
   (C2_amended_theorem env0 (initState [0])).2 (by decide)⟩

/-- C3.  Whenever the overlay and the image reference exist, the reposition
operation sets the overlay box to exactly
left = image.left - container.left - 1 + scrollLeft,
top = image.top - container.top + scrollTop, width = image.width,
height = image.height; and on the spec's concrete example the result is
(14, 20, 200, 150). -/
theorem C3_theorem (env : Env) (s : CtrlState) (i : ImgId)
    (h1 : s.overlay = true) (h2 : s.img = some i) :
    (repositionElements env s).1.overlayBox
      = some
        { left := (env.imgRect i).left - env.containerRect.left - 1
            + env.scrollLeft
        , top := (env.imgRect i).top - env.containerRect.top + env.scrollTop
        , width := (env.imgRect i).width
        , height := (env.imgRect i).height }
    ∧ computeOverlayBox ⟨110, 40, 200, 150⟩ ⟨100, 20, 640, 480⟩ 5 0
        = ⟨14, 20, 200, 150⟩ := by
  constructor
  · simp [repositionElements, h1, h2, computeOverlayBox]
  · decide

/-- C3 witness: the geometry contract evaluated in the reachable Selected
state `stateSel` under the concrete measurement environment `env0`. -/
theorem C3_witness :
    (repositionElements env0 stateSel).1.overlayBox
      = some
        { left := (env0.imgRect 1).left - env0.containerRect.left - 1
            + env0.scrollLeft
        , top := (env0.imgRect 1).top - env0.containerRect.top
            + env0.scrollTop
        , width := (env0.imgRect 1).width
        , height := (env0.imgRect 1).height }
    ∧ computeOverlayBox ⟨110, 40, 200, 150⟩ ⟨100, 20, 640, 480⟩ 5 0
        = ⟨14, 20, 200, 150⟩ :=
  C3_theorem env0 stateSel 1 (by decide) (by decide)

/-- C4.  The claim (and the source's own comment "stop listening for image
deletion or movement") requires deregistration with the same registration
parameters, leaving no residual keyup or input listener after teardown.  The
code registers both listeners with capture `true` (source lines 133-134) but
calls `removeEventListener` without the capture argument (lines 155-156), so
under DOM semantics the removal key does not match and the listeners stay
registered: after one full select/deselect cycle (`cycledState`) the
controller is Idle yet both capture-phase listeners are still in the
registry.  The observable part of the claim still holds: a keyup or input
signal while Idle reaches `checkImage`, which does nothing because no image
is active. -/
theorem C4_code_bug_theorem :
    cycledState.img = none ∧ cycledState.overlay = false
    ∧ cycledState.modules = []
    ∧ (⟨EvtTarget.document, EvtType.keyup, true⟩ : Listener)
        ∈ cycledState.listeners
    ∧ (⟨EvtTarget.root, EvtType.inputEvt, true⟩ : Listener)
        ∈ cycledState.listeners
    ∧ step env0 cycledState (Event.keyup 46) = (cycledState, [])
    ∧ step env0 cycledState Event.inputEvt = (cycledState, []) := by decide

/-- C5.  The claim states that invoking the overlay-create operation while an
overlay already exists is an idempotent no-op that neither allocates nor
replaces the overlay element.  In the code (`showOverlay`, source lines
123-143) an existing overlay is first destroyed (`hideOverlay()`) and a new
element is then created and attached: in the reachable Selected state
`stateSel` the call emits both an overlay removal and a fresh overlay
creation. -/
theorem C5_counterexample :
    stateSel.overlay = true
    ∧ (showOverlay env0 stateSel).2
        = [Action.removeOverlay, Action.setSelection, Action.createOverlay,
           Action.reposition]
    ∧ Action.removeOverlay ∈ (showOverlay env0 stateSel).2
    ∧ Action.createOverlay ∈ (showOverlay env0 stateSel).2 := by decide

/-- C5 (amended).  The overlay-create operation never faults: if an overlay
already exists it first destroys it, then (in both cases) sets the host
selection, allocates and attaches a new styled overlay element and triggers
a geometry recomputation; afterwards an overlay always exists. -/
theorem C5_amended_theorem (env : Env) (s : CtrlState) (i : ImgId)
    (h : s.img = some i) :
    (s.overlay = true →
       (showOverlay env s).2
         = [Action.removeOverlay, Action.setSelection, Action.createOverlay,
            Action.reposition])
    ∧ (s.overlay = false →
       (showOverlay env s).2
         = [Action.setSelection, Action.createOverlay, Action.reposition])
    ∧ (showOverlay env s).1.overlay = true := by
  refine ⟨fun h1 => ?_, fun h1 => ?_, ?_⟩
  · simp [showOverlay, hideOverlay, repositionElements, h, h1]
  · simp [showOverlay, hideOverlay, repositionElements, h, h1]
  · rcases h1 : s.overlay <;>
      simp [showOverlay, hideOverlay, h, h1, repositionElements_overlay]

/-- C5 witness: the amended overlay-create contract evaluated in the
reachable Selected state `stateSel` (overlay present). -/
theorem C5_witness :
    (showOverlay env0 stateSel).2
      = [Action.removeOverlay, Action.setSelection, Action.createOverlay,
         Action.reposition]
    ∧ (showOverlay env0 stateSel).1.overlay = true :=
  ⟨(C5_amended_theorem env0 stateSel 1 (by decide)).1 (by decide),
   (C5_amended_theorem env0 stateSel 1 (by decide)).2.2⟩

/-- C6.  While Selected, a Delete or Backspace keyup issues exactly one host
delete command at offset 0 — it is the first action of the trace, so it
precedes every teardown step and occurs nowhere in the teardown part — and
the subsequent teardown is full: the overlay is removed, every module's
`onDestroy` fires in order, and the active image reference is cleared. -/
theorem C6_theorem (s : CtrlState) (i : ImgId) (k : Nat)
    (h1 : s.img = some i) (h2 : s.overlay = true) (h3 : k = 46 ∨ k = 8) :
    (checkImage s (some k)).2
      = Action.deleteCmd 0
        :: (Action.removeOverlay
            :: (s.modules.map Action.onDestroy ++ [Action.clearImg]))
    ∧ Action.deleteCmd 0
        ∉ Action.removeOverlay
          :: (s.modules.map Action.onDestroy ++ [Action.clearImg])
    ∧ (checkImage s (some k)).1.img = none
    ∧ (checkImage s (some k)).1.overlay = false
    ∧ (checkImage s (some k)).1.modules = [] := by
  have hk : ((some k : Option Nat) = some 46 ∨ (some k : Option Nat) = some 8) := by
    rcases h3 with rfl | rfl
    · exact Or.inl rfl
    · exact Or.inr rfl
  refine ⟨?_, ?_, ?_, ?_, ?_⟩
  · simp [checkImage, h1, h3, hide_trace s h2]
  · simp [List.mem_cons, List.mem_append, List.mem_map]
  · simp [checkImage, h1, hide_img]
  · simp [checkImage, h1, hide_overlay]
  · simp [checkImage, h1, hide_modules]

/-- C6 witness: the deletion contract evaluated in the reachable Selected
state `stateSel` with keyCode 46 (Delete). -/
theorem C6_witness :
    (checkImage stateSel (some 46)).2
      = Action.deleteCmd 0
        :: (Action.removeOverlay
            :: (stateSel.modules.map Action.onDestroy ++ [Action.clearImg]))
    ∧ Action.deleteCmd 0
        ∉ Action.removeOverlay
          :: (stateSel.modules.map Action.onDestroy ++ [Action.clearImg])
    ∧ (checkImage stateSel (some 46)).1.img = none
    ∧ (checkImage stateSel (some 46)).1.overlay = false
    ∧ (checkImage stateSel (some 46)).1.modules = [] :=
  C6_theorem stateSel 1 46 (by decide) (by decide) (Or.inl rfl)

/-- After a click on image `i` from the Idle state, the active image is `i`. -/
theorem step_click_from_idle_img (env : Env) (mc : List ModuleId)
    (i : ImgId) :
    (step env (initState mc) (Event.click (some i))).1.img = some i := by
  simp [step, handleClick, initState, showImage_img]

/-- C7.  A sequence of activation events on the same image node behaves like
the first event alone: every repeated click on the already-active image is a
no-op, so overlay and modules are created exactly once and no teardown or
re-creation happens on re-activation. -/
theorem C7_theorem (env : Env) (mc : List ModuleId) (i : ImgId) (n : Nat) :
    run env (initState mc)
        (Event.click (some i) :: List.replicate n (Event.click (some i)))
      = run env (initState mc) [Event.click (some i)] := by
  rw [run_cons,
    run_replicate_click env (step env (initState mc) (Event.click (some i))).1
      i n (step_click_from_idle_img env mc i),
    run_cons]
  simp [run]

/-- C8.  Clicking image `b` while a different image `a` is active first runs
the complete teardown of `a`'s selection — overlay removal, every live
module's `onDestroy`, image-reference clear — and only then the complete
setup for `b`; the combined trace is the teardown trace followed by the
setup trace, every action of the first part is a teardown action and every
action of the second part is a setup action, so the two lifecycles never
interleave. -/
theorem C8_theorem (env : Env) (s : CtrlState) (a b : ImgId)
    (h1 : s.img = some a) (h2 : b ≠ a) (h3 : s.overlay = true) :
    (handleClick env s (some b)).2
      = (Action.removeOverlay
          :: (s.modules.map Action.onDestroy ++ [Action.clearImg]))
        ++ (Action.setImg b :: Action.setSelection :: Action.createOverlay
            :: Action.reposition
            :: (s.moduleClasses.map Action.construct
                ++ s.moduleClasses.map Action.onCreate
                ++ Action.reposition
                  :: s.moduleClasses.map Action.moduleUpdate))
    ∧ (∀ x ∈ Action.removeOverlay
          :: (s.modules.map Action.onDestroy ++ [Action.clearImg]),
        isTeardown x = true)
    ∧ (∀ x ∈ Action.setImg b :: Action.setSelection :: Action.createOverlay
          :: Action.reposition
          :: (s.moduleClasses.map Action.construct
              ++ s.moduleClasses.map Action.onCreate
              ++ Action.reposition :: s.moduleClasses.map Action.moduleUpdate),
        isSetup x = true) := by
  have htr : (handleClick env s (some b)).2
      = (hide s).2 ++ (showImage env (hide s).1 b).2 := by
    simp [handleClick, h1, Ne.symm h2]
  refine ⟨?_, teardown_trace_all s.modules, setup_trace_all s.moduleClasses b⟩
  rw [htr, hide_trace s h3,
    showImage_trace env (hide s).1 b (hide_overlay s) (hide_modules s),
    hide_moduleClasses]

/-- C8 witness: switching from the active image 1 to image 2 in the reachable
Selected state `stateSel`. -/
theorem C8_witness :
    (handleClick env0 stateSel (some 2)).2
      = (Action.removeOverlay
          :: (stateSel.modules.map Action.onDestroy ++ [Action.clearImg]))
        ++ (Action.setImg 2 :: Action.setSelection :: Action.createOverlay
            :: Action.reposition
            :: (stateSel.moduleClasses.map Action.construct
                ++ stateSel.moduleClasses.map Action.onCreate
                ++ Action.reposition
                  :: stateSel.moduleClasses.map Action.moduleUpdate))
    ∧ (∀ x ∈ Action.removeOverlay
          :: (stateSel.modules.map Action.onDestroy ++ [Action.clearImg]),
        isTeardown x = true)
    ∧ (∀ x ∈ Action.setImg 2 :: Action.setSelection :: Action.createOverlay
          :: Action.reposition
          :: (stateSel.moduleClasses.map Action.construct
              ++ stateSel.moduleClasses.map Action.onCreate
              ++ Action.reposition
                :: stateSel.moduleClasses.map Action.moduleUpdate),
        isSetup x = true) :=
  C8_theorem env0 stateSel 1 2 (by decide) (by decide) (by decide)

/-- A reachable Selected state with two configured modules (the spec's
list-order example `[A, B]`, modelled as `[0, 1]`). -/
def stateSelAB : CtrlState :=
  (run env0 (initState [0, 1]) [Event.click (some 1)]).1

/-- C9.  Module lifecycle hooks fire in configured list order throughout:
`initializeModules` first destroys any existing instances in order, then
constructs one instance per configured class in list order, fires `onCreate`
on each in order, and fires one aggregate update — a geometry reposition
followed by `onUpdate` on each in order; a later `onUpdate` also fires each
module in order after a reposition; teardown fires `onDestroy` on each in
instantiation order. -/
theorem C9_theorem (env : Env) (s : CtrlState) (i : ImgId)
    (h1 : s.img = some i) (h2 : s.overlay = true) :
    (initializeModules env s).2
      = s.modules.map Action.onDestroy
        ++ s.moduleClasses.map Action.construct
        ++ s.moduleClasses.map Action.onCreate
        ++ Action.reposition :: s.moduleClasses.map Action.moduleUpdate
    ∧ (initializeModules env s).1.modules = s.moduleClasses
    ∧ (onUpdate env s).2
        = Action.reposition :: s.modules.map Action.moduleUpdate
    ∧ (removeModules s).2 = s.modules.map Action.onDestroy := by
  refine ⟨?_, ?_, ?_, ?_⟩
  · simp [initializeModules, removeModules, onUpdate, repositionElements,
      h1, h2]
  · simp [initializeModules, removeModules, onUpdate, repositionElements,
      h1, h2]
  · simp [onUpdate, repositionElements, h1, h2]
  · simp [removeModules]

/-- C9 witness: the hook-ordering contract evaluated in the reachable
Selected state `stateSelAB`, whose configured module list is `[0, 1]`. -/
theorem C9_witness :
    (initializeModules env0 stateSelAB).2
      = stateSelAB.modules.map Action.onDestroy
        ++ stateSelAB.moduleClasses.map Action.construct
        ++ stateSelAB.moduleClasses.map Action.onCreate
        ++ Action.reposition :: stateSelAB.moduleClasses.map Action.moduleUpdate
    ∧ (initializeModules env0 stateSelAB).1.modules = stateSelAB.moduleClasses
    ∧ (onUpdate env0 stateSelAB).2
        = Action.reposition :: stateSelAB.modules.map Action.moduleUpdate
    ∧ (removeModules stateSelAB).2 = stateSelAB.modules.map Action.onDestroy :=
  C9_theorem env0 stateSelAB 1 (by decide) (by decide)

/-- C10.  While an image is selected, `checkImage` — reached by any keyup on
the document and any input event on the editor root — always performs the
full deactivation (image reference cleared, overlay gone, modules
destroyed), its trace is the delete command exactly when the keyCode is 46
or 8 followed by the `hide` trace, and the host delete command appears in
the trace if and only if the keyCode is 46 or 8; with no image selected the
handler does nothing. -/
theorem C10_theorem (s : CtrlState) (k : Option Nat) :
    (∀ i, s.img = some i →
       (checkImage s k).1.img = none
       ∧ (checkImage s k).1.overlay = false
       ∧ (checkImage s k).1.modules = []
       ∧ (checkImage s k).2
           = (if k = some 46 ∨ k = some 8 then [Action.deleteCmd 0] else [])
             ++ (hide s).2
       ∧ (Action.deleteCmd 0 ∈ (checkImage s k).2
           ↔ (k = some 46 ∨ k = some 8)))
    ∧ (s.img = none → checkImage s k = (s, [])) := by
  constructor
  · intro i h1
    have htr : (checkImage s k).2
        = (if k = some 46 ∨ k = some 8 then [Action.deleteCmd 0] else [])
          ++ (hide s).2 := by
      simp [checkImage, h1]
    refine ⟨?_, ?_, ?_, htr, ?_⟩
    · simp [checkImage, h1, hide_img]
    · simp [checkImage, h1, hide_overlay]
    · simp [checkImage, h1, hide_modules]
    · rw [htr]
      by_cases hk : (k = some 46 ∨ k = some 8) <;>
        simp [hk, deleteCmd_not_in_hide s 0]
  · intro h
    simp [checkImage, h]

/-- C10 witness: `checkImage` evaluated in the reachable Selected state
`stateSel` on an arrow-key keyup (keyCode 37, full deactivation but no
delete command) and in the freshly constructed Idle state (no effect). -/
theorem C10_witness :
    ((checkImage stateSel (some 37)).1.img = none
     ∧ (checkImage stateSel (some 37)).1.overlay = false
     ∧ (checkImage stateSel (some 37)).1.modules = []
     ∧ (checkImage stateSel (some 37)).2
         = (if (some 37 : Option Nat) = some 46 ∨ (some 37 : Option Nat) = some 8
            then [Action.deleteCmd 0] else [])
           ++ (hide stateSel).2
     ∧ (Action.deleteCmd 0 ∈ (checkImage stateSel (some 37)).2
         ↔ ((some 37 : Option Nat) = some 46 ∨ (some 37 : Option Nat) = some 8)))
    ∧ checkImage (initState [0]) (some 37) = (initState [0], []) :=
  ⟨(C10_theorem stateSel (some 37)).1 1 (by decide),
   (C10_theorem (initState [0]) (some 37)).2 (by decide)⟩

end ImageResize
